import Mathlib

/-!
Shallow embedding of src/Config/Agent.py from CloudDevStudios/Agent-LLM.

Modelling choices:
* The per-agent filesystem footprint is a record: the config file
  agents/<name>/config.json, the agent folder agents/<name>/, the
  memories subfolder agents/<name>/memories/, and the memory document
  agents/<name>.yaml.
* JSON documents are modelled to the nesting depth the config store
  actually reads and writes: a top-level object whose values are either
  flat objects of primitives or primitives.  JSON numbers are rationals.
* The content of the config file distinguishes exactly what the code
  distinguishes: absent, present-but-empty after strip, present but
  rejected by the JSON reader, or present and parsing to a document.
  Writers in the code always serialize a document, which is nonempty
  valid JSON, hence they store the valid case.
* Python dictionaries are association lists with first-match lookup;
  assignment replaces an existing key in place and appends a new key,
  matching insertion-order semantics.
* The YAML serializer is external to the repository; the memory file
  stores the document itself (safe_dump followed by safe_load is the
  identity on these documents), and a concrete text rendering stands in
  for the dumped string where a raw read is performed.
* Exceptions are an explicit error sum; the unbounded while-True read
  loop is given fuel, with fuel exhaustion as a distinguished error so
  that termination is a provable statement about the loop.
-/

namespace AgentLLM

/-- JSON primitive values (strings, numbers as rationals, booleans, null). -/
inductive JPrim where
  | jstr : String → JPrim
  | jnum : Rat → JPrim
  | jbool : Bool → JPrim
  | jnull : JPrim
deriving DecidableEq

/-- A top-level JSON value at the depth the config store uses: either a flat
object of primitives or a primitive. -/
inductive JTop where
  | jobj : List (String × JPrim) → JTop
  | jprim : JPrim → JTop
deriving DecidableEq

/-- A flat JSON object (e.g. the settings sub-object or the commands map). -/
abbrev JObj := List (String × JPrim)

/-- A top-level JSON document (e.g. the whole config file). -/
abbrev JDoc := List (String × JTop)

/-- Python dict lookup: first matching key. -/
def dictLookup {α : Type} : List (String × α) → String → Option α
  | [], _ => none
  | (k0, v) :: t, k => if k0 = k then some v else dictLookup t k

/-- Python dict assignment d[k] = v: replace an existing key in place,
append a new key at the end. -/
def dictInsert {α : Type} : List (String × α) → String → α → List (String × α)
  | [], k, v => [(k, v)]
  | (k0, v0) :: t, k, v => if k0 = k then (k, v) :: t else (k0, v0) :: dictInsert t k v

/-- Python dict.update(e): assign every binding of e into d, in order. -/
def dictUpdate {α : Type} (d e : List (String × α)) : List (String × α) :=
  e.foldl (fun acc p => dictInsert acc p.1 p.2) d

/-- One record of the interaction log: a role and a message
(Agent.py, log_interaction). -/
structure Interaction where
  role : String
  message : String
deriving DecidableEq

/-- The memory document persisted in agents/<name>.yaml:
an ordered list under the interactions key (Agent.py, load_memory). -/
structure MemoryDoc where
  interactions : List Interaction
deriving DecidableEq

/-- State of the agents/<name>/config.json file, at the granularity the code
distinguishes: empty after strip, nonempty but rejected by json.loads, or
parsing to a document. -/
inductive FileContent where
  | empty : FileContent
  | invalid : String → FileContent
  | valid : JDoc → FileContent
deriving DecidableEq

/-- The per-agent filesystem footprint of Agent.py. -/
structure AgentFS where
  configFile : Option FileContent
  agentFolder : Bool
  memoriesFolder : Bool
  yamlFile : Option MemoryDoc
deriving DecidableEq

/-- Python exceptions that the embedded operations can raise, plus a
distinguished marker for a while-True loop that has not exited within
its fuel. -/
inductive PyErr where
  | parseError : PyErr
  | typeError : PyErr
  | nonTermination : PyErr
deriving DecidableEq

/-- A plugin callable: its dunder name and its formal parameters, each with
an optional declared default (none models Parameter.empty). -/
structure PyFunc where
  fname : String
  params : List (String × Option JPrim)
deriving DecidableEq

/-- A plugin module after instantiation: it either exposes a commands
mapping from display name to callable, or it does not have the attribute. -/
structure CommandModule where
  commands : Option (List (String × PyFunc))
deriving DecidableEq

/-- Agent.get_command_params: each parameter maps to None when it declares no
default, and to its declared default otherwise. -/
def get_command_params (f : PyFunc) : List (String × JPrim) :=
  f.params.map fun p =>
    match p.2 with
    | none => (p.1, JPrim.jnull)
    | some d => (p.1, d)

/-- Agent.load_commands: walk the plugin modules in directory order; a module
exposing a commands mapping contributes one catalog entry per command,
a module without the attribute contributes nothing. -/
def load_commands (modules : List CommandModule) :
    List (String × String × List (String × JPrim)) :=
  modules.foldl
    (fun acc m =>
      match m.commands with
      | none => acc
      | some cs => acc ++ cs.map (fun c => (c.1, c.2.fname, get_command_params c.2)))
    []

/-- Agent.add_agent, the command_dict loop: every discovered command maps
to the boolean False. -/
def command_dict (modules : List CommandModule) : JObj :=
  (load_commands modules).foldl (fun d c => dictInsert d c.1 (JPrim.jbool false)) []

/-- Agent.create_agent_folder: ensure agents/<name>/ exists. -/
def create_agent_folder (fs : AgentFS) : AgentFS :=
  { fs with agentFolder := true }

/-- Agent.create_agent_config_file: ensure the agent directory exists and
overwrite config.json with the serialized document
with keys commands then settings. -/
def create_agent_config_file (provider_settings commands : JObj) (fs : AgentFS) : AgentFS :=
  { fs with
      agentFolder := true
      configFile := some (FileContent.valid
        [("commands", JTop.jobj commands), ("settings", JTop.jobj provider_settings)]) }

/-- Agent.add_agent: create the folder, build the all-disabled command map
from discovery, and write the config file.  The returned dict with the
agent_file key carries no state and is omitted. -/
def add_agent (modules : List CommandModule) (provider_settings : JObj)
    (fs : AgentFS) : AgentFS :=
  create_agent_config_file provider_settings (command_dict modules) (create_agent_folder fs)

/-- Agent.get_agent_config, the body of the while-True loop, with fuel.
Each iteration: if the file exists with nonempty content, json.loads it
(raising on invalid content) and break; otherwise call
add_agent(name, empty dict) and iterate.  The result carries the returned
document, the final filesystem state, and how many regenerations
(add_agent calls) the call performed. -/
def get_agent_config_loop (modules : List CommandModule) :
    Nat → AgentFS → Except PyErr (JDoc × AgentFS × Nat)
  | 0, _ => Except.error PyErr.nonTermination
  | fuel + 1, fs =>
    match fs.configFile with
    | some (FileContent.valid v) => Except.ok (v, fs, 0)
    | some (FileContent.invalid _) => Except.error PyErr.parseError
    | some FileContent.empty =>
      match get_agent_config_loop modules fuel (add_agent modules [] fs) with
      | Except.ok (v, fs2, n) => Except.ok (v, fs2, n + 1)
      | Except.error e => Except.error e
    | none =>
      match get_agent_config_loop modules fuel (add_agent modules [] fs) with
      | Except.ok (v, fs2, n) => Except.ok (v, fs2, n + 1)
      | Except.error e => Except.error e

/-- Agent.get_agent_config: the loop above; fuel 2 is exact, since after one
regeneration the file always holds a valid document (proved below). -/
def get_agent_config (modules : List CommandModule) (fs : AgentFS) :
    Except PyErr (JDoc × AgentFS × Nat) :=
  get_agent_config_loop modules 2 fs

/-- Number of regenerations an outcome of the resolution loop performed. -/
def regen_count : Except PyErr (JDoc × AgentFS × Nat) → Nat
  | Except.ok (_, _, n) => n
  | Except.error _ => 0

/-- Agent.update_agent_config, the branch ensuring the settings key exists
before merging into it. -/
def ensure_settings (current_config : JDoc) : JDoc :=
  match dictLookup current_config "settings" with
  | none => dictInsert current_config "settings" (JTop.jobj [])
  | some _ => current_config

/-- Agent.update_agent_config: when the config file is absent, return the
not-found message without touching the filesystem; otherwise json.load the
file (raising on empty or invalid content), ensure a settings sub-object,
dict.update it with the new settings, and write the document back. -/
def update_agent_config (agent_name : String) (new_config : JObj) (fs : AgentFS) :
    Except PyErr (String × AgentFS) :=
  match fs.configFile with
  | none => Except.ok ("Agent " ++ agent_name ++ " configuration not found.", fs)
  | some FileContent.empty => Except.error PyErr.parseError
  | some (FileContent.invalid _) => Except.error PyErr.parseError
  | some (FileContent.valid cc) =>
    let cc2 := ensure_settings cc
    match dictLookup cc2 "settings" with
    | some (JTop.jobj s) =>
      Except.ok ("Agent " ++ agent_name ++ " configuration updated.",
        { fs with configFile := some (FileContent.valid
            (dictInsert cc2 "settings" (JTop.jobj (dictUpdate s new_config)))) })
    | some (JTop.jprim _) => Except.error PyErr.typeError
    | none => Except.error PyErr.typeError

/-- Agent.delete_agent: removing the missing memory file raises
FileNotFoundError, which is caught and returned as a message with 404 before
the folder is touched; otherwise the file is removed, the folder tree
(including the memories subfolder) is removed when present, and a success
message with 200 is returned. -/
def delete_agent (agent_name : String) (fs : AgentFS) : (String × Nat) × AgentFS :=
  match fs.yamlFile with
  | none => (("Agent file agents/" ++ agent_name ++ ".yaml not found.", 404), fs)
  | some _ =>
    let fs1 : AgentFS := { fs with yamlFile := none }
    let fs2 : AgentFS :=
      if fs1.agentFolder then { fs1 with agentFolder := false, memoriesFolder := false }
      else fs1
    (("Agent " ++ agent_name ++ " deleted.", 200), fs2)

/-- Concrete stand-in for yaml.safe_dump on one interaction record. -/
def yaml_dump_interaction (i : Interaction) : String :=
  "- message: " ++ i.message ++ "\n  role: " ++ i.role ++ "\n"

/-- Concrete stand-in for yaml.safe_dump on the memory document; the claims
below never depend on the exact rendering, only on reads being pure. -/
def yaml_dump (m : MemoryDoc) : String :=
  if m.interactions.isEmpty then "interactions: []\n"
  else "interactions:\n" ++ String.join (m.interactions.map yaml_dump_interaction)

/-- Agent.get_chat_history: return the empty string when agents/<name>.yaml
does not exist, its raw text otherwise; the filesystem is not modified. -/
def get_chat_history (fs : AgentFS) : String × AgentFS :=
  match fs.yamlFile with
  | none => ("", fs)
  | some m => (yaml_dump m, fs)

/-- Agent.wipe_agent_memories: remove agents/<name>/memories/ when present;
nothing else is touched. -/
def wipe_agent_memories (fs : AgentFS) : AgentFS :=
  if fs.memoriesFolder then { fs with memoriesFolder := false } else fs

/-- Agent.load_memory: read the document when the file exists, otherwise
write and return the empty document. -/
def load_memory (fs : AgentFS) : MemoryDoc × AgentFS :=
  match fs.yamlFile with
  | some memory => (memory, fs)
  | none => (MemoryDoc.mk [], { fs with yamlFile := some (MemoryDoc.mk []) })

/-- The memory-store part of a live agent: the in-memory document and the
filesystem it persists to. -/
structure AgentMem where
  memory : MemoryDoc
  fs : AgentFS
deriving DecidableEq

/-- The memory part of Agent construction: load or initialize the document. -/
def init_mem (fs : AgentFS) : AgentMem :=
  AgentMem.mk (load_memory fs).1 (load_memory fs).2

/-- Agent.save_memory: serialize the whole in-memory document over the file. -/
def save_memory (a : AgentMem) : AgentMem :=
  { a with fs := { a.fs with yamlFile := some a.memory } }

/-- Agent.log_interaction: append one record, then save the full document. -/
def log_interaction (role message : String) (a : AgentMem) : AgentMem :=
  save_memory { a with memory := MemoryDoc.mk (a.memory.interactions ++ [Interaction.mk role message]) }

/-- A sequence of log_interaction calls, in order. -/
def append_all (pairs : List (String × String)) (a : AgentMem) : AgentMem :=
  pairs.foldl (fun acc p => log_interaction p.1 p.2 acc) a

/-- The default document the resolution loop actually persists for a fresh
agent with an empty catalog: empty commands and empty settings. -/
def fresh_default_doc : JDoc :=
  [("commands", JTop.jobj []), ("settings", JTop.jobj [])]

/-- The document the specification claims a fresh agent receives:
empty commands and the huggingchat default settings. -/
def claimed_default_doc : JDoc :=
  [("commands", JTop.jobj []),
   ("settings", JTop.jobj
      [("provider", JPrim.jstr "huggingchat"),
       ("AI_MODEL", JPrim.jstr "openassistant"),
       ("AI_TEMPERATURE", JPrim.jnum (0.4 : Rat)),
       ("MAX_TOKENS", JPrim.jnum 2000)])]

/-- Looking up the key just assigned yields the assigned value. -/
theorem dictLookup_dictInsert_self {α : Type} (d : List (String × α)) (k : String) (v : α) :
    dictLookup (dictInsert d k v) k = some v := by
  induction d with
  | nil => simp [dictInsert, dictLookup]
  | cons hd t ih =>
    obtain ⟨k0, v0⟩ := hd
    by_cases hk : k0 = k <;> simp [dictInsert, dictLookup, hk, ih]

/-- Assigning one key leaves every other key's lookup unchanged. -/
theorem dictLookup_dictInsert_ne {α : Type} (d : List (String × α)) (k k2 : String) (v : α)
    (h : k ≠ k2) : dictLookup (dictInsert d k v) k2 = dictLookup d k2 := by
  induction d with
  | nil => simp [dictInsert, dictLookup, h]
  | cons hd t ih =>
    obtain ⟨k0, v0⟩ := hd
    by_cases hk : k0 = k
    · subst hk
      simp [dictInsert, dictLookup, h]
    · simp [dictInsert, dictLookup, hk, ih]

/-- Logging a sequence of interactions appends exactly those records, in call
order, to the in-memory document. -/
theorem append_all_interactions (pairs : List (String × String)) (a : AgentMem) :
    (append_all pairs a).memory.interactions
      = a.memory.interactions ++ pairs.map (fun p => Interaction.mk p.1 p.2) := by
  induction pairs generalizing a with
  | nil => simp [append_all]
  | cons p rest ih =>
    have h1 : append_all (p :: rest) a = append_all rest (log_interaction p.1 p.2 a) := by
      simp [append_all]
    rw [h1, ih]
    simp [log_interaction, save_memory]

/-- After at least one logged interaction, the file holds exactly the
in-memory document (write-through). -/
theorem append_all_persists (p : String × String) (rest : List (String × String)) (a : AgentMem) :
    (append_all (p :: rest) a).fs.yamlFile = some (append_all (p :: rest) a).memory := by
  induction rest generalizing p a with
  | nil => simp [append_all, log_interaction, save_memory]
  | cons q rest2 ih =>
    have h1 : append_all (p :: q :: rest2) a
        = append_all (q :: rest2) (log_interaction p.1 p.2 a) := by
      simp [append_all]
    rw [h1]
    exact ih q (log_interaction p.1 p.2 a)

/-- The config file add_agent leaves behind: all catalog commands disabled and
the provider settings it was given. -/
theorem add_agent_configFile (modules : List CommandModule) (ps : JObj) (fs : AgentFS) :
    (add_agent modules ps fs).configFile
      = some (FileContent.valid
          [("commands", JTop.jobj (command_dict modules)), ("settings", JTop.jobj ps)]) := rfl

/-- One loop iteration on a parsable file returns its document at once. -/
theorem loop_succ_valid (modules : List CommandModule) (fuel : Nat) (fs : AgentFS) (v : JDoc)
    (h : fs.configFile = some (FileContent.valid v)) :
    get_agent_config_loop modules (fuel + 1) fs = Except.ok (v, fs, 0) := by
  simp [get_agent_config_loop, h]

/-- One loop iteration on a nonempty unparsable file raises the parse error. -/
theorem loop_succ_invalid (modules : List CommandModule) (fuel : Nat) (fs : AgentFS) (s : String)
    (h : fs.configFile = some (FileContent.invalid s)) :
    get_agent_config_loop modules (fuel + 1) fs = Except.error PyErr.parseError := by
  simp [get_agent_config_loop, h]

/-- On an empty or absent config file the loop regenerates once via add_agent
and succeeds on the immediately following read. -/
theorem loop_empty_or_absent (modules : List CommandModule) (fuel : Nat) (fs : AgentFS)
    (h : fs.configFile = some FileContent.empty ∨ fs.configFile = none) :
    get_agent_config_loop modules (fuel + 1 + 1) fs
      = Except.ok ([("commands", JTop.jobj (command_dict modules)), ("settings", JTop.jobj [])],
          add_agent modules [] fs, 1) := by
  cases h with
  | inl he => simp [get_agent_config_loop, he, add_agent_configFile]
  | inr hn => simp [get_agent_config_loop, hn, add_agent_configFile]

/-- Any fuel of at least two gives the same outcome as fuel exactly two. -/
theorem get_agent_config_loop_stable (modules : List CommandModule) (k : Nat) (fs : AgentFS) :
    get_agent_config_loop modules (k + 1 + 1) fs = get_agent_config_loop modules 2 fs := by
  have h2 : (2 : Nat) = 0 + 1 + 1 := rfl
  cases hc : fs.configFile with
  | none =>
    rw [loop_empty_or_absent modules k fs (Or.inr hc), h2,
      loop_empty_or_absent modules 0 fs (Or.inr hc)]
  | some fc =>
    cases fc with
    | empty =>
      rw [loop_empty_or_absent modules k fs (Or.inl hc), h2,
        loop_empty_or_absent modules 0 fs (Or.inl hc)]
    | invalid s =>
      rw [loop_succ_invalid modules (k + 1) fs s hc, h2, loop_succ_invalid modules 1 fs s hc]
    | valid v =>
      rw [loop_succ_valid modules (k + 1) fs v hc, h2, loop_succ_valid modules 1 fs v hc]

/-- Claim C1, as stated, is false: resolving a never-seen agent with an empty
catalog persists and returns a document whose settings sub-object is empty,
not the huggingchat defaults the claim names. -/
theorem C1_counterexample :
    get_agent_config [] (AgentFS.mk none false false none)
      = Except.ok (fresh_default_doc,
          AgentFS.mk (some (FileContent.valid fresh_default_doc)) true false none, 1) ∧
    fresh_default_doc ≠ claimed_default_doc := by
  constructor
  · rfl
  · decide

/-- Claim C1, amended: for an agent name never seen before, given an empty
command catalog, resolving the configuration creates the agent folder,
persists, and returns the document with empty commands and empty settings
(the resolve path calls add_agent with an empty provider-settings dict). -/
theorem C1_fresh_resolve_empty_settings (fs : AgentFS) (h : fs.configFile = none) :
    get_agent_config [] fs
      = Except.ok (fresh_default_doc,
          { fs with
              agentFolder := true
              configFile := some (FileContent.valid fresh_default_doc) }, 1) := by
  rw [get_agent_config, show (2 : Nat) = 0 + 1 + 1 from rfl,
    loop_empty_or_absent [] 0 fs (Or.inr h)]
  rfl

/-- Witness for C1 at the concrete fresh filesystem. -/
theorem C1_witness :
    get_agent_config [] (AgentFS.mk none false false none)
      = Except.ok (fresh_default_doc,
          { AgentFS.mk none false false none with
              agentFolder := true
              configFile := some (FileContent.valid fresh_default_doc) }, 1) :=
  C1_fresh_resolve_empty_settings (AgentFS.mk none false false none) rfl

/-- Claim C2, as stated, is false: on a config file holding nonempty
unparsable JSON the resolution loop propagates the parse error instead of
regenerating a default document. -/
theorem C2_counterexample :
    get_agent_config [] (AgentFS.mk (some (FileContent.invalid "not json")) true false none)
      = Except.error PyErr.parseError := rfl

/-- Claim C2, amended: only the empty-file case self-heals; resolving an
agent whose config file exists but is empty regenerates a default document
(all catalog commands disabled, empty settings), persists it, and returns
it without error. -/
theorem C2_empty_file_regenerates (modules : List CommandModule) (fs : AgentFS)
    (h : fs.configFile = some FileContent.empty) :
    get_agent_config modules fs
      = Except.ok ([("commands", JTop.jobj (command_dict modules)), ("settings", JTop.jobj [])],
          { fs with
              agentFolder := true
              configFile := some (FileContent.valid
                [("commands", JTop.jobj (command_dict modules)),
                 ("settings", JTop.jobj [])]) }, 1) := by
  rw [get_agent_config, show (2 : Nat) = 0 + 1 + 1 from rfl,
    loop_empty_or_absent modules 0 fs (Or.inl h)]
  rfl

/-- Witness for C2 at a concrete one-command catalog and an empty file. -/
theorem C2_witness :
    get_agent_config
        [CommandModule.mk (some [("Search Online", PyFunc.mk "search_online" [("query", none)])])]
        (AgentFS.mk (some FileContent.empty) true false none)
      = Except.ok
          ([("commands", JTop.jobj (command_dict
              [CommandModule.mk (some [("Search Online", PyFunc.mk "search_online" [("query", none)])])])),
            ("settings", JTop.jobj [])],
          { AgentFS.mk (some FileContent.empty) true false none with
              agentFolder := true
              configFile := some (FileContent.valid
                [("commands", JTop.jobj (command_dict
                    [CommandModule.mk (some [("Search Online", PyFunc.mk "search_online" [("query", none)])])])),
                 ("settings", JTop.jobj [])]) }, 1) :=
  C2_empty_file_regenerates
    [CommandModule.mk (some [("Search Online", PyFunc.mk "search_online" [("query", none)])])]
    (AgentFS.mk (some FileContent.empty) true false none) rfl

/-- Claim C3: for every catalog and every initial file state, the resolution
loop with any fuel of at least two equals its two-step unfolding, never
exhausts its fuel (the call terminates), and performs at most one
regeneration; a read failure is surfaced as the fatal parse error rather
than retried. -/
theorem C3_resolution_terminates (modules : List CommandModule) (fs : AgentFS) (fuel : Nat)
    (h : 2 ≤ fuel) :
    get_agent_config_loop modules fuel fs = get_agent_config_loop modules 2 fs ∧
    get_agent_config_loop modules fuel fs ≠ Except.error PyErr.nonTermination ∧
    regen_count (get_agent_config_loop modules fuel fs) ≤ 1 := by
  obtain ⟨k, rfl⟩ : ∃ k, fuel = k + 1 + 1 := ⟨fuel - 2, by omega⟩
  have hs := get_agent_config_loop_stable modules k fs
  have h2 : get_agent_config_loop modules 2 fs ≠ Except.error PyErr.nonTermination ∧
      regen_count (get_agent_config_loop modules 2 fs) ≤ 1 := by
    rw [show (2 : Nat) = 0 + 1 + 1 from rfl]
    cases hc : fs.configFile with
    | none =>
      rw [loop_empty_or_absent modules 0 fs (Or.inr hc)]
      simp [regen_count]
    | some fc =>
      cases fc with
      | empty =>
        rw [loop_empty_or_absent modules 0 fs (Or.inl hc)]
        simp [regen_count]
      | invalid s =>
        rw [loop_succ_invalid modules (0 + 1) fs s hc]
        simp [regen_count]
      | valid v =>
        rw [loop_succ_valid modules (0 + 1) fs v hc]
        simp [regen_count]
  exact ⟨hs, by rw [hs]; exact h2.1, by rw [hs]; exact h2.2⟩

/-- Witness for C3 at a concrete fuel and fresh filesystem. -/
theorem C3_witness :
    (get_agent_config_loop [] 7 (AgentFS.mk none false false none)
       = get_agent_config_loop [] 2 (AgentFS.mk none false false none)) ∧
    get_agent_config_loop [] 7 (AgentFS.mk none false false none)
       ≠ Except.error PyErr.nonTermination ∧
    regen_count (get_agent_config_loop [] 7 (AgentFS.mk none false false none)) ≤ 1 :=
  C3_resolution_terminates [] (AgentFS.mk none false false none) 7 (by decide)

/-- Claim C4: starting from a fresh memory store, any sequence of
log_interaction calls leaves a persisted log that reloads to exactly the
ordered sequence of role/message records appended, and every single
log_interaction call persists the full in-memory document before
returning. -/
theorem C4_append_roundtrip (pairs : List (String × String)) (fs : AgentFS)
    (a : AgentMem) (role message : String) (h : fs.yamlFile = none) :
    (load_memory (append_all pairs (init_mem fs)).fs).1.interactions
      = pairs.map (fun p => Interaction.mk p.1 p.2) ∧
    (log_interaction role message a).fs.yamlFile
      = some (log_interaction role message a).memory := by
  constructor
  · have hmem : (init_mem fs).memory.interactions = [] := by
      simp [init_mem, load_memory, h]
    cases pairs with
    | nil => simp [append_all, init_mem, load_memory, h]
    | cons p rest =>
      have hp := append_all_persists p rest (init_mem fs)
      have hi := append_all_interactions (p :: rest) (init_mem fs)
      rw [hmem] at hi
      simp [load_memory, hp, hi]
  · simp [log_interaction, save_memory]

/-- Witness for C4 at a concrete two-interaction run. -/
theorem C4_witness :
    (load_memory (append_all [("user", "hi"), ("assistant", "hello")]
        (init_mem (AgentFS.mk none false false none))).fs).1.interactions
      = [("user", "hi"), ("assistant", "hello")].map (fun p => Interaction.mk p.1 p.2) ∧
    (log_interaction "user" "hi"
        (AgentMem.mk (MemoryDoc.mk []) (AgentFS.mk none false false none))).fs.yamlFile
      = some (log_interaction "user" "hi"
          (AgentMem.mk (MemoryDoc.mk []) (AgentFS.mk none false false none))).memory :=
  C4_append_roundtrip [("user", "hi"), ("assistant", "hello")]
    (AgentFS.mk none false false none)
    (AgentMem.mk (MemoryDoc.mk []) (AgentFS.mk none false false none)) "user" "hi" rfl

/-- Claim C5: on an existing config file whose settings sub-object is d,
applying update with s1 and then with s2 yields a settings object equal to
d merged with s1 merged with s2 (later keys win), and the commands entry
of the document is untouched by both updates. -/
theorem C5_update_merge (agent_name : String) (fs : AgentFS) (cur : JDoc) (d s1 s2 : JObj)
    (hfile : fs.configFile = some (FileContent.valid cur))
    (hset : dictLookup cur "settings" = some (JTop.jobj d)) :
    ∃ cur2 : JDoc,
      update_agent_config agent_name s1 fs
        = Except.ok ("Agent " ++ agent_name ++ " configuration updated.",
            { fs with configFile := some (FileContent.valid
                (dictInsert cur "settings" (JTop.jobj (dictUpdate d s1)))) }) ∧
      update_agent_config agent_name s2
          { fs with configFile := some (FileContent.valid
              (dictInsert cur "settings" (JTop.jobj (dictUpdate d s1)))) }
        = Except.ok ("Agent " ++ agent_name ++ " configuration updated.",
            { fs with configFile := some (FileContent.valid cur2) }) ∧
      dictLookup cur2 "settings" = some (JTop.jobj (dictUpdate (dictUpdate d s1) s2)) ∧
      dictLookup cur2 "commands" = dictLookup cur "commands" := by
  have hset2 : dictLookup (dictInsert cur "settings" (JTop.jobj (dictUpdate d s1))) "settings"
      = some (JTop.jobj (dictUpdate d s1)) :=
    dictLookup_dictInsert_self cur "settings" (JTop.jobj (dictUpdate d s1))
  have hne : ("settings" : String) ≠ "commands" := by decide
  refine ⟨dictInsert (dictInsert cur "settings" (JTop.jobj (dictUpdate d s1))) "settings"
      (JTop.jobj (dictUpdate (dictUpdate d s1) s2)), ?_, ?_, ?_, ?_⟩
  · simp [update_agent_config, hfile, ensure_settings, hset]
  · simp [update_agent_config, ensure_settings, hset2]
  · exact dictLookup_dictInsert_self _ "settings" _
  · rw [dictLookup_dictInsert_ne _ _ _ _ hne, dictLookup_dictInsert_ne _ _ _ _ hne]

/-- Witness for C5 at a concrete config, a commands map, and two updates. -/
theorem C5_witness :
    ∃ cur2 : JDoc,
      update_agent_config "Bot1" [("AI_MODEL", JPrim.jstr "gpt4")]
          (AgentFS.mk (some (FileContent.valid
            [("commands", JTop.jobj [("Search Online", JPrim.jbool false)]),
             ("settings", JTop.jobj [("provider", JPrim.jstr "huggingchat")])])) true false none)
        = Except.ok ("Agent " ++ "Bot1" ++ " configuration updated.",
            { AgentFS.mk (some (FileContent.valid
                [("commands", JTop.jobj [("Search Online", JPrim.jbool false)]),
                 ("settings", JTop.jobj [("provider", JPrim.jstr "huggingchat")])])) true false none with
              configFile := some (FileContent.valid
                (dictInsert
                  [("commands", JTop.jobj [("Search Online", JPrim.jbool false)]),
                   ("settings", JTop.jobj [("provider", JPrim.jstr "huggingchat")])]
                  "settings"
                  (JTop.jobj (dictUpdate [("provider", JPrim.jstr "huggingchat")]
                    [("AI_MODEL", JPrim.jstr "gpt4")])))) }) ∧
      update_agent_config "Bot1" [("AI_MODEL", JPrim.jstr "vicuna"), ("MAX_TOKENS", JPrim.jnum 4000)]
          { AgentFS.mk (some (FileContent.valid
              [("commands", JTop.jobj [("Search Online", JPrim.jbool false)]),
               ("settings", JTop.jobj [("provider", JPrim.jstr "huggingchat")])])) true false none with
            configFile := some (FileContent.valid
              (dictInsert
                [("commands", JTop.jobj [("Search Online", JPrim.jbool false)]),
                 ("settings", JTop.jobj [("provider", JPrim.jstr "huggingchat")])]
                "settings"
                (JTop.jobj (dictUpdate [("provider", JPrim.jstr "huggingchat")]
                  [("AI_MODEL", JPrim.jstr "gpt4")])))) }
        = Except.ok ("Agent " ++ "Bot1" ++ " configuration updated.",
            { AgentFS.mk (some (FileContent.valid
                [("commands", JTop.jobj [("Search Online", JPrim.jbool false)]),
                 ("settings", JTop.jobj [("provider", JPrim.jstr "huggingchat")])])) true false none with
              configFile := some (FileContent.valid cur2) }) ∧
      dictLookup cur2 "settings"
        = some (JTop.jobj (dictUpdate (dictUpdate [("provider", JPrim.jstr "huggingchat")]
            [("AI_MODEL", JPrim.jstr "gpt4")])
            [("AI_MODEL", JPrim.jstr "vicuna"), ("MAX_TOKENS", JPrim.jnum 4000)])) ∧
      dictLookup cur2 "commands"
        = dictLookup
            [("commands", JTop.jobj [("Search Online", JPrim.jbool false)]),
             ("settings", JTop.jobj [("provider", JPrim.jstr "huggingchat")])] "commands" :=
  C5_update_merge "Bot1"
    (AgentFS.mk (some (FileContent.valid
      [("commands", JTop.jobj [("Search Online", JPrim.jbool false)]),
       ("settings", JTop.jobj [("provider", JPrim.jstr "huggingchat")])])) true false none)
    [("commands", JTop.jobj [("Search Online", JPrim.jbool false)]),
     ("settings", JTop.jobj [("provider", JPrim.jstr "huggingchat")])]
    [("provider", JPrim.jstr "huggingchat")]
    [("AI_MODEL", JPrim.jstr "gpt4")]
    [("AI_MODEL", JPrim.jstr "vicuna"), ("MAX_TOKENS", JPrim.jnum 4000)]
    rfl (by decide)

/-- Claim C6: updating an agent whose config file does not exist returns the
configuration-not-found message and leaves the filesystem exactly as it
was; no config file is created. -/
theorem C6_update_missing_config (agent_name : String) (s : JObj) (fs : AgentFS)
    (h : fs.configFile = none) :
    update_agent_config agent_name s fs
      = Except.ok ("Agent " ++ agent_name ++ " configuration not found.", fs) := by
  simp [update_agent_config, h]

/-- Witness for C6 at a concrete agent and settings. -/
theorem C6_witness :
    update_agent_config "Bot1" [("provider", JPrim.jstr "openai")]
        (AgentFS.mk none false false none)
      = Except.ok ("Agent " ++ "Bot1" ++ " configuration not found.",
          AgentFS.mk none false false none) :=
  C6_update_missing_config "Bot1" [("provider", JPrim.jstr "openai")]
    (AgentFS.mk none false false none) rfl

/-- Claim C7: deleting an agent whose memory document is absent returns the
structured not-found message with 404 and leaves the filesystem, in
particular the agent folder, untouched. -/
theorem C7_delete_missing_memory (agent_name : String) (fs : AgentFS)
    (h : fs.yamlFile = none) :
    delete_agent agent_name fs
      = (("Agent file agents/" ++ agent_name ++ ".yaml not found.", 404), fs) := by
  simp [delete_agent, h]

/-- Witness for C7 at a concrete agent whose folder exists. -/
theorem C7_witness :
    delete_agent "Ghost" (AgentFS.mk none true true none)
      = (("Agent file agents/" ++ "Ghost" ++ ".yaml not found.", 404),
         AgentFS.mk none true true none) :=
  C7_delete_missing_memory "Ghost" (AgentFS.mk none true true none) rfl

/-- Claim C8: discovery over one module exposing a commands mapping and one
module without the attribute yields exactly as many catalog entries as the
mapping has, in either directory order, and the commandless module
contributes nothing. -/
theorem C8_discovery_skips_commandless (cs : List (String × PyFunc)) :
    (load_commands [CommandModule.mk (some cs), CommandModule.mk none]).length = cs.length ∧
    (load_commands [CommandModule.mk none, CommandModule.mk (some cs)]).length = cs.length ∧
    load_commands [CommandModule.mk (some cs), CommandModule.mk none]
      = load_commands [CommandModule.mk (some cs)] := by
  refine ⟨?_, ?_, rfl⟩ <;> simp [load_commands]

/-- Claim C9: wiping memories clears only the memories subfolder; the config
file, agent folder and memory document are untouched, and the chat history
read afterwards is the one read before. -/
theorem C9_wipe_preserves_chat (fs : AgentFS) :
    (wipe_agent_memories fs).memoriesFolder = false ∧
    (wipe_agent_memories fs).yamlFile = fs.yamlFile ∧
    (wipe_agent_memories fs).configFile = fs.configFile ∧
    (wipe_agent_memories fs).agentFolder = fs.agentFolder ∧
    (get_chat_history (wipe_agent_memories fs)).1 = (get_chat_history fs).1 := by
  by_cases h : fs.memoriesFolder <;> cases hy : fs.yamlFile <;>
    simp [wipe_agent_memories, h, hy, get_chat_history]

/-- Claim C10: reading the chat history of an agent whose memory document
does not exist returns the empty string and leaves the filesystem
unchanged. -/
theorem C10_chat_history_missing_file (fs : AgentFS) (h : fs.yamlFile = none) :
    get_chat_history fs = ("", fs) := by
  simp [get_chat_history, h]

/-- Witness for C10 at a concrete agent with no memory document. -/
theorem C10_witness :
    get_chat_history (AgentFS.mk none true false none)
      = ("", AgentFS.mk none true false none) :=
  C10_chat_history_missing_file (AgentFS.mk none true false none) rfl

end AgentLLM
